import Mathlib

/-!
Shallow embedding of `src/offline/assistant.py` (respeaker/ok_google).

The module wraps a native voice-assistant engine behind a Python class
`Assistant`. We model each method as a function from the object's mutable
state to (a trace of observable external actions, the new state, and the
returned value / raised-exception flag). External actions are the native
library calls issued on the handle `self._inst`, the `stop()` call on the
credentials refresher, and the `offer` call on the event queue.
-/

namespace OkGoogle

/-- An event as constructed by the callback bridge: `Event(event_type, event_data)`
in `assistant.py`, holding the numeric kind and the raw serialized payload
string handed over by the native engine. (The `Event` class body itself lives
in `event.py`, which only the bridge's construction call touches here.) -/
structure Event where
  kind : Int
  payload : String
  deriving DecidableEq

/-- The native library calls `assistant.py` issues through `self._lib`
on the handle `self._inst`. -/
inductive NativeCall where
  | assistantNew
  | assistantFree
  | assistantStart
  | assistantSetAccessToken (tokenBytes : List Nat) (length : Nat)
  | assistantSetMicMute (isMuted : Bool)
  | assistantStartConversation
  | assistantStopConversation
  deriving DecidableEq

/-- Observable external actions of the wrapper: a native call on the handle,
`stop()` on the credentials refresher, `offer(event)` on the event queue, and
a close of the event queue — the last is never emitted by the code and is
listed so that its absence from a trace is expressible. -/
inductive Action where
  | nativeCall (c : NativeCall)
  | refresherStop
  | queueOffer (e : Event)
  | queueClose
  deriving DecidableEq

/-- The mutable state of an `Assistant` object: whether
`self._credentials_refresher` currently holds a refresher object
(`true`) or `None` (`false`), and the contents of `self._event_queue`. -/
structure Assistant where
  credentialsRefresher : Bool
  eventQueue : List Event
  deriving DecidableEq

/-- Raised if the OS is unsupported by the Assistant
(class `UnsupportedPlatformError` in the source). -/
structure UnsupportedPlatformError where
  message : String
  deriving DecidableEq

/-- The shared-library file name computed in `Assistant._load_lib`:
`'libassistant_embedder_' + platform + '.so'`. -/
def libName (platform : String) : String :=
  "libassistant_embedder_" ++ platform ++ ".so"

/-- `Assistant._load_lib`: reads the OS name and machine from `os.uname()`
and raises `UnsupportedPlatformError` when the OS name is not `'Linux'` or
the platform-specific library file does not exist next to the module;
`isFile` abstracts `os.path.isfile` on the module's directory. -/
def loadLib (osName platform : String) (isFile : String → Bool) :
    Except UnsupportedPlatformError Unit :=
  if osName ≠ "Linux" ∨ isFile (libName platform) = false then
    Except.error ⟨platform ++ " is not supported."⟩
  else
    Except.ok ()

/-- `Assistant.__init__`: creates an empty event queue, runs `_load_lib`
(which may raise, in which case no native call has been issued and no object
results), sets `self._credentials_refresher = None`, and calls the native
`assistant_new`. The `CredentialsRefresher` wiring is commented out in the
source, so construction always leaves the refresher unset. -/
def Assistant.init (osName platform : String) (isFile : String → Bool) :
    Except UnsupportedPlatformError (Assistant × List Action) :=
  match loadLib osName platform isFile with
  | Except.error e => Except.error e
  | Except.ok _ =>
      Except.ok ({ credentialsRefresher := false, eventQueue := [] },
                 [Action.nativeCall NativeCall.assistantNew])

/-- Result of a method that may raise a Python exception: the external
actions performed before returning or raising, the object state afterwards,
and whether an exception propagated to the caller. -/
structure MethodResult where
  trace : List Action
  state : Assistant
  raised : Bool
  deriving DecidableEq

/-- `Assistant.__exit__`: if `self._credentials_refresher` is set, call
`stop()` on it and assign `None` to the field; then call the native
`assistant_free(self._inst)`. The body has no `try`/`finally`, so when
`stop()` raises (parameter `stopRaises`) the exception propagates before
`assistant_free` is reached and the field still holds the refresher. -/
def Assistant.exit (a : Assistant) (stopRaises : Bool) : MethodResult :=
  if a.credentialsRefresher then
    if stopRaises then
      { trace := [Action.refresherStop], state := a, raised := true }
    else
      { trace := [Action.refresherStop,
                  Action.nativeCall NativeCall.assistantFree],
        state := { a with credentialsRefresher := false },
        raised := false }
  else
    { trace := [Action.nativeCall NativeCall.assistantFree],
      state := a,
      raised := false }

/-- `Assistant.__call__`, the callback bridge: invoked by the native engine
with `(event_type, event_data)`; performs exactly
`self._event_queue.offer(Event(event_type, event_data))`. The state update
records the FIFO append that `offer` performs on the queue. -/
def Assistant.call (a : Assistant) (eventType : Int) (eventData : String) :
    List Action × Assistant :=
  ([Action.queueOffer ⟨eventType, eventData⟩],
   { a with eventQueue := a.eventQueue ++ [⟨eventType, eventData⟩] })

/-- `Assistant.start`: issues the native `assistant_start(self._inst)` call
and returns `self._event_queue` (modelled by the `eventQueue` field). The
method body has no guard of any kind: it can be called any number of times
and each call reissues the native start. -/
def Assistant.start (a : Assistant) : List Action × Assistant × List Event :=
  ([Action.nativeCall NativeCall.assistantStart], a, a.eventQueue)

/-- `Assistant.set_mic_mute`: forwards directly to the native
`assistant_set_mic_mute(self._inst, is_muted)`; no guard, no validation,
no state update. -/
def Assistant.set_mic_mute (a : Assistant) (isMuted : Bool) :
    List Action × Assistant :=
  ([Action.nativeCall (NativeCall.assistantSetMicMute isMuted)], a)

/-- `Assistant.start_conversation`: forwards directly to the native
`assistant_start_conversation(self._inst)`. -/
def Assistant.start_conversation (a : Assistant) : List Action × Assistant :=
  ([Action.nativeCall NativeCall.assistantStartConversation], a)

/-- `Assistant.stop_conversation`: forwards directly to the native
`assistant_stop_conversation(self._inst)`. -/
def Assistant.stop_conversation (a : Assistant) : List Action × Assistant :=
  ([Action.nativeCall NativeCall.assistantStopConversation], a)

/-- Python `str.encode('ascii')`: succeeds exactly when every character's
code point is below 128, yielding one byte per character; otherwise raises
a `UnicodeEncodeError` (modelled as `none`). -/
def encodeAscii (s : String) : Option (List Nat) :=
  if ∀ c ∈ s.toList, c.toNat < 128 then
    some (s.toList.map Char.toNat)
  else
    none

/-- `Assistant._set_credentials`: runs `credentials.token.encode('ascii')`;
a non-ASCII token makes the encode raise before any native call is issued,
while an ASCII token is forwarded as
`assistant_set_access_token(self._inst, access_token, len(access_token))`. -/
def Assistant.set_credentials (a : Assistant) (token : String) : MethodResult :=
  match encodeAscii token with
  | none => { trace := [], state := a, raised := true }
  | some bs =>
      { trace := [Action.nativeCall
                    (NativeCall.assistantSetAccessToken bs bs.length)],
        state := a,
        raised := false }

/-- A freshly constructed assistant: no refresher, empty queue. -/
def a0 : Assistant := { credentialsRefresher := false, eventQueue := [] }

/-- An assistant whose `_credentials_refresher` field holds a live
refresher object. -/
def a1 : Assistant := { credentialsRefresher := true, eventQueue := [] }

/-- C1 counterexample: the claim says a second `start()` raises and the
native `assistant_start` is invoked exactly once over the Session's life.
On a concrete freshly constructed assistant, calling `start()` twice issues
two native `assistant_start` calls (and `start` has no raising path at all). -/
theorem C1_counterexample :
    ((Assistant.start a0).1 ++ (Assistant.start (Assistant.start a0).2.1).1).count
      (Action.nativeCall NativeCall.assistantStart) = 2 := by decide

/-- C1 amended: calling `start()` a second time does not fail at all; every
call to `start()` unconditionally issues exactly one native `assistant_start`
call, so a Session on which `start()` is called twice has issued two native
start calls. -/
theorem C1_each_start_reissues_native_start (a : Assistant) :
    (Assistant.start a).1 = [Action.nativeCall NativeCall.assistantStart] ∧
    ((Assistant.start a).1 ++ (Assistant.start (Assistant.start a).2.1).1).count
      (Action.nativeCall NativeCall.assistantStart) = 2 := by
  simp [Assistant.start]

/-- C2 counterexample: the claim says that after `__exit__` a `set_mic_mute`
call issues no native operation after `assistant_free`. On a concrete
assistant, `__exit__` completes having issued `assistant_free`, and the
subsequent `set_mic_mute(True)` still issues a native
`assistant_set_mic_mute` call — a post-release native call. -/
theorem C2_counterexample :
    (Assistant.exit a0 false).raised = false ∧
    (Assistant.exit a0 false).trace = [Action.nativeCall NativeCall.assistantFree] ∧
    (Assistant.set_mic_mute (Assistant.exit a0 false).state true).1
      = [Action.nativeCall (NativeCall.assistantSetMicMute true)] := by decide

/-- C2 amended: after teardown, `set_mic_mute` is neither a silent no-op nor
an `InvalidState` error — the wrapper keeps no lifecycle state, so the call
forwards exactly one native `assistant_set_mic_mute` to the already-released
handle, i.e. a post-release native call does occur. -/
theorem C2_post_exit_mute_hits_freed_handle (a : Assistant) (b : Bool) :
    (Assistant.exit a false).raised = false ∧
    Action.nativeCall NativeCall.assistantFree ∈ (Assistant.exit a false).trace ∧
    (Assistant.set_mic_mute (Assistant.exit a false).state b).1
      = [Action.nativeCall (NativeCall.assistantSetMicMute b)] := by
  cases h : a.credentialsRefresher <;>
    simp [Assistant.exit, Assistant.set_mic_mute, h]

/-- C3 counterexample: the claim says `assistant_free` is still executed even
if the refresher's `stop` raises. On a concrete assistant holding a live
refresher, a raising `stop` makes `__exit__` propagate the exception after
only the `stop` call: `assistant_free` is never reached. -/
theorem C3_counterexample :
    (Assistant.exit a1 true).trace = [Action.refresherStop] ∧
    Action.nativeCall NativeCall.assistantFree ∉ (Assistant.exit a1 true).trace ∧
    (Assistant.exit a1 true).raised = true := by decide

/-- C3 amended: when a live refresher is present, `__exit__` calls `stop` on
it before releasing the native handle; but if `stop` raises, the exception
propagates and `assistant_free` is not executed (the release happens only
when `stop` returns normally, and then strictly after the `stop`). -/
theorem C3_exit_stops_refresher_before_free (a : Assistant)
    (h : a.credentialsRefresher = true) :
    (Assistant.exit a false).trace
      = [Action.refresherStop, Action.nativeCall NativeCall.assistantFree] ∧
    (Assistant.exit a true).trace = [Action.refresherStop] := by
  simp [Assistant.exit, h]

/-- C3 witness: the amended theorem instantiated at a concrete assistant
with a live refresher. -/
theorem C3_exit_stops_refresher_before_free_witness :
    a1.credentialsRefresher = true ∧
    ((Assistant.exit a1 false).trace
      = [Action.refresherStop, Action.nativeCall NativeCall.assistantFree] ∧
     (Assistant.exit a1 true).trace = [Action.refresherStop]) :=
  ⟨by decide, C3_exit_stops_refresher_before_free a1 (by decide)⟩

/-- C4: a token with at least one non-ASCII character makes
`_set_credentials` raise synchronously with an empty native-call trace (the
native engine's stored token is untouched), while an all-ASCII token is
encoded and forwarded, bytes and byte length, in a single native
`assistant_set_access_token` call. -/
theorem C4_set_credentials_ascii_gate (a : Assistant) (token : String) :
    ((¬ ∀ c ∈ token.toList, c.toNat < 128) →
       (Assistant.set_credentials a token).trace = [] ∧
       (Assistant.set_credentials a token).raised = true) ∧
    ((∀ c ∈ token.toList, c.toNat < 128) →
       (Assistant.set_credentials a token).trace
         = [Action.nativeCall (NativeCall.assistantSetAccessToken
             (token.toList.map Char.toNat) (token.toList.map Char.toNat).length)] ∧
       (Assistant.set_credentials a token).raised = false) := by
  constructor
  · intro h
    unfold Assistant.set_credentials encodeAscii
    rw [if_neg h]
    exact ⟨rfl, rfl⟩
  · intro h
    unfold Assistant.set_credentials encodeAscii
    rw [if_pos h]
    exact ⟨rfl, rfl⟩

/-- C4 witness: the theorem applied at the non-ASCII token `"tokén"` and at
the ASCII token `"abc"`. -/
theorem C4_set_credentials_ascii_gate_witness :
    ((Assistant.set_credentials a0 "tokén").trace = [] ∧
     (Assistant.set_credentials a0 "tokén").raised = true) ∧
    ((Assistant.set_credentials a0 "abc").trace
       = [Action.nativeCall (NativeCall.assistantSetAccessToken
           ("abc".toList.map Char.toNat) ("abc".toList.map Char.toNat).length)] ∧
     (Assistant.set_credentials a0 "abc").raised = false) :=
  ⟨(C4_set_credentials_ascii_gate a0 "tokén").1 (by decide),
   (C4_set_credentials_ascii_gate a0 "abc").2 (by decide)⟩

/-- C5 counterexample: the claim says teardown closes the EventQueue as its
third step. On concrete assistants with and without a live refresher,
`__exit__` emits no queue-close action at all. -/
theorem C5_counterexample :
    Action.queueClose ∉ (Assistant.exit a1 false).trace ∧
    Action.queueClose ∉ (Assistant.exit a0 false).trace := by decide

/-- C5 amended: teardown performs at most two ordered steps — it stops the
refresher if present (clearing the field), then releases the native handle —
and never closes the event queue, so the consumer sequence is not terminated
by teardown. -/
theorem C5_exit_never_closes_queue (a : Assistant) (r : Bool) :
    (Assistant.exit a r).trace
      = (if a.credentialsRefresher then
           if r then [Action.refresherStop]
           else [Action.refresherStop, Action.nativeCall NativeCall.assistantFree]
         else [Action.nativeCall NativeCall.assistantFree]) ∧
    Action.queueClose ∉ (Assistant.exit a r).trace := by
  cases h : a.credentialsRefresher <;> cases r <;> simp [Assistant.exit, h]

/-- C6: each invocation of the callback bridge performs exactly one `offer`
of exactly one `Event(event_type, event_data)` on the assistant's event
queue, appending it FIFO; two consecutive invocations produce exactly the
two offers in invocation order. -/
theorem C6_callback_single_offer_in_order (a : Assistant)
    (k1 k2 : Int) (p1 p2 : String) :
    (Assistant.call a k1 p1).1 = [Action.queueOffer ⟨k1, p1⟩] ∧
    ((Assistant.call a k1 p1).1 ++ (Assistant.call (Assistant.call a k1 p1).2 k2 p2).1)
      = [Action.queueOffer ⟨k1, p1⟩, Action.queueOffer ⟨k2, p2⟩] ∧
    (Assistant.call a k1 p1).2.eventQueue = a.eventQueue ++ [⟨k1, p1⟩] := by
  simp [Assistant.call]

/-- C7: construction raises `UnsupportedPlatformError` — producing no
assistant and issuing no native call — exactly when the OS name is not
`'Linux'` or no library file named
`'libassistant_embedder_' + platform + '.so'` exists next to the module;
otherwise it succeeds, issuing the single native `assistant_new` call. -/
theorem C7_init_platform_check (osName platform : String)
    (isFile : String → Bool) :
    Assistant.init osName platform isFile
      = (if osName = "Linux" ∧ isFile (libName platform) = true then
           Except.ok ({ credentialsRefresher := false, eventQueue := [] },
                      [Action.nativeCall NativeCall.assistantNew])
         else Except.error ⟨platform ++ " is not supported."⟩) := by
  unfold Assistant.init loadLib
  by_cases h1 : osName = "Linux" <;> by_cases h2 : isFile (libName platform) = true <;>
    simp [h1, h2, Bool.not_eq_true] at *

/-- C8: `start()` issues the native `assistant_start` call on the handle and
returns the assistant's own event queue — the very field the callback bridge
appends into — so the consumer sequence returned by `start` is fed by the
bridge's offers. -/
theorem C8_start_returns_bridged_queue (a : Assistant) (k : Int) (p : String) :
    (Assistant.start a).1 = [Action.nativeCall NativeCall.assistantStart] ∧
    (Assistant.start a).2.2 = a.eventQueue ∧
    (Assistant.call a k p).2.eventQueue = a.eventQueue ++ [⟨k, p⟩] := by
  simp [Assistant.start, Assistant.call]

/-- C9: `set_mic_mute`, `start_conversation` and `stop_conversation` are
pure forwarding — each issues exactly one corresponding native call with its
argument passed through unchanged, never raises, and leaves the wrapper
state untouched (no validation or bookkeeping of the wrapper's own). -/
theorem C9_commands_pure_forwarding (a : Assistant) (b : Bool) :
    (Assistant.set_mic_mute a b).1
      = [Action.nativeCall (NativeCall.assistantSetMicMute b)] ∧
    (Assistant.set_mic_mute a b).2 = a ∧
    (Assistant.start_conversation a).1
      = [Action.nativeCall NativeCall.assistantStartConversation] ∧
    (Assistant.start_conversation a).2 = a ∧
    (Assistant.stop_conversation a).1
      = [Action.nativeCall NativeCall.assistantStopConversation] ∧
    (Assistant.stop_conversation a).2 = a := by
  simp [Assistant.set_mic_mute, Assistant.start_conversation,
        Assistant.stop_conversation]

/-- C10 counterexample: the claim says every `__exit__` call unconditionally
invokes `assistant_free`. On a concrete assistant with a live refresher
whose `stop` raises, `__exit__` propagates the exception and issues no
`assistant_free` at all. -/
theorem C10_counterexample :
    (Assistant.exit a1 true).trace.count
      (Action.nativeCall NativeCall.assistantFree) = 0 := by decide

/-- C10 amended: every `__exit__` call in which the refresher's `stop` does
not raise invokes `assistant_free` exactly once, without any released-flag
guard — so two such calls on the same assistant release the native handle
twice, while the refresher (cleared by the first call) is stopped at most
once. -/
theorem C10_double_exit_double_free (a : Assistant) :
    (Assistant.exit a false).trace.count
      (Action.nativeCall NativeCall.assistantFree) = 1 ∧
    ((Assistant.exit a false).trace ++
      (Assistant.exit (Assistant.exit a false).state false).trace).count
        (Action.nativeCall NativeCall.assistantFree) = 2 ∧
    ((Assistant.exit a false).trace ++
      (Assistant.exit (Assistant.exit a false).state false).trace).count
        Action.refresherStop ≤ 1 := by
  cases h : a.credentialsRefresher <;> simp [Assistant.exit, h]

end OkGoogle
